import Mathlib

/-!
A shallow embedding of the HVAC ensemble fault-diagnosis orchestrator
(`portal/hailo_inference.py`) together with theorems about its ensemble
executor, diagnosis interpreter and consensus aggregator.

Python floats are modelled as rationals (`ℚ`); Python dicts that preserve
insertion order are modelled as association lists; the hardware inference
backend is an abstract function from a model name and an input vector to
an optional output vector (`none` models a backend error, i.e. the paths
on which `run_inference` returns `None`).  The completion order of the
worker threads in simultaneous mode is an explicit parameter: any
permutation of the registry order.
-/

namespace Hailo

/-- The keys of `MODEL_PATHS`, in source order (registry iteration order). -/
def MODEL_NAMES : List String :=
  ["apollo", "aquilo", "boreas", "naiad", "vulcan", "zephyrus", "colossus", "gaia"]

/-- `prepare_sensor_data`: build the 19 named features with their defaults, then
zero-pad to width 32.  Sensor data is a partial map from names to numbers. -/
def prepare_sensor_data (sensor_data : String → Option ℚ) : List ℚ :=
  let features : List ℚ := [
    (sensor_data "supply_air_temp").getD 20,
    (sensor_data "return_air_temp").getD 22,
    (sensor_data "outside_air_temp").getD 25,
    (sensor_data "mixed_air_temp").getD 21,
    (sensor_data "supply_air_pressure").getD (mkRat 3 2),
    (sensor_data "return_air_pressure").getD (mkRat 6 5),
    (sensor_data "filter_pressure_drop").getD (mkRat 3 10),
    (sensor_data "supply_air_flow").getD 1000,
    (sensor_data "return_air_flow").getD 950,
    (sensor_data "compressor_current").getD 15,
    (sensor_data "fan_motor_current").getD 5,
    (sensor_data "power_consumption").getD 3500,
    (sensor_data "supply_air_humidity").getD 45,
    (sensor_data "return_air_humidity").getD 50,
    (sensor_data "setpoint_temp").getD 22,
    (sensor_data "damper_position").getD 50,
    (sensor_data "valve_position").getD 30,
    (sensor_data "compressor_status").getD 0,
    (sensor_data "fan_status").getD 1]
  features ++ List.replicate (32 - features.length) 0

/-- A per-model result dict: either the success record
`{fault_detected, confidence, diagnosis[, inference_time_ms][, total_ensemble_time_ms]}`
(the optional timing fields are `none` when the corresponding key is absent)
or an error record `{error: reason}`. -/
inductive ModelResult where
  | success (fault_detected : Bool) (confidence : ℚ) (diagnosis : String)
      (inference_time_ms : Option ℚ) (total_ensemble_time_ms : Option ℚ)
  | failure (reason : String)
deriving DecidableEq

/-- `'confidence' in r`: the success records are exactly the dicts carrying
a `confidence` key. -/
def ModelResult.hasConfidence : ModelResult → Bool
  | .success _ _ _ _ _ => true
  | .failure _ => false

/-- Spec-side predicate: the result is a `Success` record. -/
def ModelResult.isSuccess : ModelResult → Bool
  | .success _ _ _ _ _ => true
  | .failure _ => false

/-- `r.get('fault_detected', False)`. -/
def ModelResult.faultDetectedD : ModelResult → Bool
  | .success f _ _ _ _ => f
  | .failure _ => false

/-- `r.get('confidence', 0)`. -/
def ModelResult.confidenceD : ModelResult → ℚ
  | .success _ c _ _ _ => c
  | .failure _ => 0

/-- `r['diagnosis']` (only ever read on fault-flagged, hence success, records;
the default for an error record is immaterial). -/
def ModelResult.diagnosisD : ModelResult → String
  | .success _ _ d _ _ => d
  | .failure _ => ""

/-- `interpret_diagnosis`: the static dict of per-model strings, each value a
conditional on `fault_prob < 0.5`, read with `.get(model_name, 'Unknown')`. -/
def interpret_diagnosis (model_name : String) (fault_prob : ℚ) : String :=
  let diagnoses : List (String × String) := [
    ("apollo", if fault_prob < mkRat 1 2 then "System coordination normal"
               else "System coordination issue detected"),
    ("aquilo", if fault_prob < mkRat 1 2 then "Electrical systems normal"
               else "Electrical fault detected"),
    ("boreas", if fault_prob < mkRat 1 2 then "Refrigeration normal"
               else "Refrigeration issue detected"),
    ("naiad", if fault_prob < mkRat 1 2 then "Flow systems normal"
              else "Flow restriction detected"),
    ("vulcan", if fault_prob < mkRat 1 2 then "Mechanical systems normal"
               else "Mechanical fault detected"),
    ("zephyrus", if fault_prob < mkRat 1 2 then "Airflow normal"
                 else "Airflow issue detected"),
    ("colossus", if fault_prob < mkRat 1 2 then "No pattern anomalies"
                 else "Pattern anomaly detected"),
    ("gaia", if fault_prob < mkRat 1 2 then "Safety parameters normal"
             else "Safety concern detected")]
  (diagnoses.lookup model_name).getD "Unknown"

/-- Python's `max(xs, key=...)` on a nonempty list: the first element whose key
is maximal wins (a later element replaces the current best only when its key is
strictly greater). -/
def maxByConfidence : List (String × ModelResult) → Option (String × ModelResult)
  | [] => none
  | x :: xs =>
      some (xs.foldl (fun best y =>
        if y.2.confidenceD > best.2.confidenceD then y else best) x)

/-- The final dict `{diagnosis, consensus}`. -/
structure ConsensusResult where
  diagnosis : String
  consensus : ℚ
deriving DecidableEq

/-- `aggregate_diagnoses`, translated clause by clause from the source. -/
def aggregate_diagnoses (results : List (String × ModelResult)) : ConsensusResult :=
  let valid_results := (results.map Prod.snd).filter ModelResult.hasConfidence
  if valid_results.isEmpty then
    ⟨"Unable to complete diagnosis", 0⟩
  else
    let fault_votes := (valid_results.filter ModelResult.faultDetectedD).length
    let consensus : ℚ := (fault_votes : ℚ) / (valid_results.length : ℚ)
    let diagnosis :=
      if consensus > mkRat 7 10 then
        match maxByConfidence (results.filter fun kv => kv.2.faultDetectedD) with
        | some primary_fault => "FAULT DETECTED: " ++ primary_fault.2.diagnosisD
        | none => "Multiple system issues detected"
      else if consensus > mkRat 3 10 then
        "Potential issue detected - monitoring recommended"
      else
        "System operating normally"
    ⟨diagnosis, consensus⟩

/-- The state `diagnose` runs against: the registry's per-model loaded flags,
the backend (`run_inference`, `none` on error), and the wall-clock measurements
taken in simultaneous mode (per-model and whole-ensemble durations in ms). -/
structure DiagState where
  loaded : String → Bool
  backend : String → List ℚ → Option (List ℚ)
  timeOf : String → ℚ
  totalTime : ℚ

/-- One iteration of the sequential loop body of `diagnose` for one model. -/
def seqResult (st : DiagState) (sd : String → Option ℚ) (m : String) : ModelResult :=
  if st.loaded m then
    match st.backend m (prepare_sensor_data sd) with
    | some output =>
        ModelResult.success (decide (output.headD 0 > mkRat 1 2)) (output.headD 0)
          (interpret_diagnosis m (output.headD 0)) none none
    | none => ModelResult.failure "Inference failed"
  else ModelResult.failure "Model not loaded"

/-- The body of one worker thread in `run_simultaneous_inference` (before the
`total_ensemble_time_ms` pass): same computation as the sequential body plus
the per-call `inference_time_ms` measurement. -/
def simResult (st : DiagState) (sd : String → Option ℚ) (m : String) : ModelResult :=
  if st.loaded m then
    match st.backend m (prepare_sensor_data sd) with
    | some output =>
        ModelResult.success (decide (output.headD 0 > mkRat 1 2)) (output.headD 0)
          (interpret_diagnosis m (output.headD 0)) (some (st.timeOf m)) none
    | none => ModelResult.failure "Inference failed"
  else ModelResult.failure "Model not loaded"

/-- The post-join pass attaching `total_ensemble_time_ms` to every non-error
result. -/
def addTotalTime (t : ℚ) : ModelResult → ModelResult
  | .success f c d it _ => .success f c d it (some t)
  | r => r

/-- `run_simultaneous_inference`: one thread per registered model, each writing
exactly one key under the lock; the dict's insertion order is the threads'
completion order, an arbitrary permutation of `MODEL_NAMES` supplied here as
`completionOrder`. -/
def run_simultaneous_inference (st : DiagState) (sd : String → Option ℚ)
    (completionOrder : List String) : List (String × ModelResult) :=
  completionOrder.map (fun m => (m, addTotalTime st.totalTime (simResult st sd m)))

/-- The sequential branch of `diagnose`: registry order. -/
def run_sequential (st : DiagState) (sd : String → Option ℚ) :
    List (String × ModelResult) :=
  MODEL_NAMES.map (fun m => (m, seqResult st sd m))

/-- The report `{models, final, mode}`. -/
structure EnsembleReport where
  models : List (String × ModelResult)
  final : ConsensusResult
  mode : String
deriving DecidableEq

/-- `diagnose(sensor_data, mode)`: branch on `mode == 'simultaneous'`, then
aggregate, and echo `mode` in the report. -/
def diagnose (st : DiagState) (sensor_data : String → Option ℚ) (mode : String)
    (completionOrder : List String) : EnsembleReport :=
  let results :=
    if mode = "simultaneous" then run_simultaneous_inference st sensor_data completionOrder
    else run_sequential st sensor_data
  ⟨results, aggregate_diagnoses results, mode⟩

/-- The default value of `diagnose`'s `mode` parameter in the source:
`def diagnose(self, sensor_data, mode='sequential')`. -/
def diagnose_default_mode : String := "sequential"

/-- Calling the `diagnose` method without specifying a mode. -/
def diagnoseNoMode (st : DiagState) (sensor_data : String → Option ℚ) :
    EnsembleReport :=
  diagnose st sensor_data diagnose_default_mode MODEL_NAMES

/-- The CLI `diagnose` command's mode selection in `main`: default
`'simultaneous'`, overridden by `sys.argv[3]` when present
(`argv` is the full argument vector, script name included). -/
def main_diagnose_mode (argv : List String) : String :=
  if argv.length > 3 then argv.getD 3 "simultaneous" else "simultaneous"

/-- Outcome of one model's load attempt in `initialize`: configured fine,
raised an error, or the HEF file was absent. -/
inductive LoadOutcome where
  | ok (size : ℚ)
  | err (msg : String)
  | missing
deriving DecidableEq

/-- Did the load succeed (`models[name]['loaded']`)? -/
def LoadOutcome.isOk : LoadOutcome → Bool
  | .ok _ => true
  | _ => false

/-- The environment `initialize` runs against: whether `VDevice` creation
succeeds, and each model's load outcome. -/
structure InitEnv where
  deviceOk : Bool
  load : String → LoadOutcome

/-- `initialize`: returns `False` (here `none`) exactly when device creation
throws; otherwise records every model's load status independently and returns
`True` together with the resulting loaded map
(`self.models.get(name, {}).get('loaded')`). -/
def initialize_models (env : InitEnv) : Option (String → Bool) :=
  if env.deviceOk then
    some (fun m => decide (m ∈ MODEL_NAMES) && (env.load m).isOk)
  else none

/-- What the CLI `diagnose` command prints: a full report, or a top-level
error object. -/
inductive CliOutput where
  | report (r : EnsembleReport)
  | failure (msg : String)
deriving DecidableEq

/-- The CLI `diagnose` path in `main`: run `initialize`, and on `False` print
`{'error': 'Failed to initialize Hailo device'}` instead of a report. -/
def main_diagnose (env : InitEnv) (backend : String → List ℚ → Option (List ℚ))
    (timeOf : String → ℚ) (totalTime : ℚ) (sensor_data : String → Option ℚ)
    (mode : String) (completionOrder : List String) : CliOutput :=
  match initialize_models env with
  | some loadedMap =>
      CliOutput.report (diagnose ⟨loadedMap, backend, timeOf, totalTime⟩
        sensor_data mode completionOrder)
  | none => CliOutput.failure "Failed to initialize Hailo device"

/-! Spec-side definitions, written from the specification's words, to be
compared with the definitions translated from the source. -/

/-- Spec-side aggregator, following the specified contract: `valid_results` is
the subset of `Success` results; empty set short-circuits; consensus is the
fault fraction; three-tier policy with a first-wins max-confidence tie-break
over the fault-flagged `Success` results. -/
def aggregate_diagnoses_spec (results : List (String × ModelResult)) :
    ConsensusResult :=
  let valid_results := (results.map Prod.snd).filter ModelResult.isSuccess
  if valid_results.isEmpty then
    ⟨"Unable to complete diagnosis", 0⟩
  else
    let consensus : ℚ :=
      ((valid_results.filter ModelResult.faultDetectedD).length : ℚ) /
        (valid_results.length : ℚ)
    let diagnosis :=
      if consensus > mkRat 7 10 then
        match maxByConfidence
            (results.filter fun kv => kv.2.isSuccess && kv.2.faultDetectedD) with
        | some primary_fault => "FAULT DETECTED: " ++ primary_fault.2.diagnosisD
        | none => "Multiple system issues detected"
      else if consensus > mkRat 3 10 then
        "Potential issue detected - monitoring recommended"
      else
        "System operating normally"
    ⟨diagnosis, consensus⟩

/-- The static normal-condition strings of the interpreter's table. -/
def normal_diagnoses : List (String × String) := [
  ("apollo", "System coordination normal"),
  ("aquilo", "Electrical systems normal"),
  ("boreas", "Refrigeration normal"),
  ("naiad", "Flow systems normal"),
  ("vulcan", "Mechanical systems normal"),
  ("zephyrus", "Airflow normal"),
  ("colossus", "No pattern anomalies"),
  ("gaia", "Safety parameters normal")]

/-- The static fault-condition strings of the interpreter's table. -/
def fault_diagnoses : List (String × String) := [
  ("apollo", "System coordination issue detected"),
  ("aquilo", "Electrical fault detected"),
  ("boreas", "Refrigeration issue detected"),
  ("naiad", "Flow restriction detected"),
  ("vulcan", "Mechanical fault detected"),
  ("zephyrus", "Airflow issue detected"),
  ("colossus", "Pattern anomaly detected"),
  ("gaia", "Safety concern detected")]

/-- Two-string-table interpreter keyed on `fault_prob < 0.5` (the boundary the
code actually uses: the fault string is chosen for every probability at or
above one half), with `"Unknown"` off the table. -/
def interpret_diagnosis_table (model_name : String) (fault_prob : ℚ) : String :=
  if fault_prob < mkRat 1 2 then (normal_diagnoses.lookup model_name).getD "Unknown"
  else (fault_diagnoses.lookup model_name).getD "Unknown"

/-! Concrete inputs used by witnesses and counterexamples. -/

/-- Sensor payload supplying no readings (every feature takes its default). -/
def sd0 : String → Option ℚ := fun _ => none

/-- All models loaded; the backend answers every model with the single scalar
`0.9`; per-call measurement 3 ms, ensemble measurement 7 ms. -/
def stW : DiagState := ⟨fun _ => true, fun _ _ => some [mkRat 9 10], fun _ => 3, 7⟩

/-- All models loaded; the backend answers `apollo` with an empty output
vector and every other model with `0.9`. -/
def stE : DiagState :=
  ⟨fun _ => true, fun m _ => if m = "apollo" then some [] else some [mkRat 9 10],
   fun _ => 3, 7⟩

/-- All models loaded; the backend fails (returns `None`) for `apollo` and
answers every other model with `0.9`. -/
def stB : DiagState :=
  ⟨fun _ => true, fun m _ => if m = "apollo" then none else some [mkRat 9 10],
   fun _ => 3, 7⟩

/-- Device created fine, but every model's HEF file is absent: zero models
load. -/
def env0 : InitEnv := ⟨true, fun _ => LoadOutcome.missing⟩

/-! Helper lemmas. -/

lemma hasConfidence_eq_isSuccess :
    ModelResult.hasConfidence = ModelResult.isSuccess := by
  funext r
  cases r <;> rfl

lemma faultDetectedD_and_isSuccess :
    (fun kv : String × ModelResult => kv.2.faultDetectedD)
      = fun kv : String × ModelResult => kv.2.isSuccess && kv.2.faultDetectedD := by
  funext kv
  obtain ⟨k, r⟩ := kv
  cases r <;> rfl

lemma diagnose_models_eq (st : DiagState) (sd : String → Option ℚ) (mode : String)
    (ord : List String) :
    (diagnose st sd mode ord).models
      = if mode = "simultaneous" then run_simultaneous_inference st sd ord
        else run_sequential st sd := rfl

lemma diagnose_mode_eq (st : DiagState) (sd : String → Option ℚ) (mode : String)
    (ord : List String) : (diagnose st sd mode ord).mode = mode := rfl

lemma mem_map_pair {l : List String} {g : String → ModelResult} {m : String}
    {r : ModelResult} (h : (m, r) ∈ l.map (fun n => (n, g n))) : r = g m := by
  obtain ⟨a, -, heq⟩ := List.mem_map.mp h
  cases heq
  rfl

lemma lookup_map_pair {l : List String} {g : String → ModelResult} {m : String}
    (h : m ∈ l) : (l.map (fun n => (n, g n))).lookup m = some (g m) := by
  induction l with
  | nil => cases h
  | cons a t ih =>
      by_cases hma : m = a
      · subst hma
        simp [List.lookup]
      · have ht : m ∈ t := (List.mem_cons.mp h).resolve_left hma
        have hbeq : (m == a) = false := beq_eq_false_iff_ne.mpr hma
        simpa [List.lookup, hbeq] using ih ht

lemma lookup_map_pair_congr {g₁ g₂ : String → ModelResult} {m0 : String}
    (hg : ∀ n, n ≠ m0 → g₁ n = g₂ n) {m : String} (hm : m ≠ m0)
    (l : List String) :
    (l.map (fun n => (n, g₁ n))).lookup m = (l.map (fun n => (n, g₂ n))).lookup m := by
  induction l with
  | nil => rfl
  | cons a t ih =>
      by_cases hma : m = a
      · subst hma
        simp [List.lookup, hg m hm]
      · have hbeq : (m == a) = false := beq_eq_false_iff_ne.mpr hma
        simpa [List.lookup, hbeq] using ih

/-! Claim theorems. -/

/-- Claim C1: `aggregate_diagnoses` implements the specified contract exactly —
no confidence-bearing result gives `{Unable to complete diagnosis, 0}`;
otherwise consensus is the fault fraction over the `Success` results (a value
in `[0,1]`) and the diagnosis follows the three-tier policy with the first-wins
max-confidence tie-break, with `"Multiple system issues detected"` when no
result is fault-flagged despite consensus above `0.7`. -/
theorem aggregate_diagnoses_meets_spec (results : List (String × ModelResult)) :
    aggregate_diagnoses results = aggregate_diagnoses_spec results ∧
    0 ≤ (aggregate_diagnoses results).consensus ∧
    (aggregate_diagnoses results).consensus ≤ 1 := by
  refine ⟨?_, ?_⟩
  · unfold aggregate_diagnoses aggregate_diagnoses_spec
    rw [hasConfidence_eq_isSuccess, faultDetectedD_and_isSuccess]
  · have hc : (aggregate_diagnoses results).consensus
        = (if ((results.map Prod.snd).filter ModelResult.hasConfidence).isEmpty then (0 : ℚ)
           else ((((results.map Prod.snd).filter ModelResult.hasConfidence).filter
                    ModelResult.faultDetectedD).length : ℚ) /
                ((((results.map Prod.snd).filter ModelResult.hasConfidence)).length : ℚ)) := by
      unfold aggregate_diagnoses
      by_cases h : ((results.map Prod.snd).filter ModelResult.hasConfidence).isEmpty <;>
        simp [h]
    rw [hc]
    by_cases h : ((results.map Prod.snd).filter ModelResult.hasConfidence).isEmpty
    · simp [h]
    · rw [if_neg h]
      have hlen : 0 < ((results.map Prod.snd).filter ModelResult.hasConfidence).length := by
        cases hL : (results.map Prod.snd).filter ModelResult.hasConfidence with
        | nil => rw [hL] at h; simp at h
        | cons a t => simp [hL]
      constructor
      · exact div_nonneg (by positivity) (by positivity)
      · rw [div_le_one (by exact_mod_cast hlen)]
        exact_mod_cast List.length_filter_le _ _

/-- Claim C8 counterexample: at a fault probability of exactly `0.5` — which
does not exceed `0.5` — the interpreter returns the fault string, not the
normal string the claim requires. -/
theorem interpret_at_half_gives_fault_string :
    interpret_diagnosis "apollo" (mkRat 1 2) = "System coordination issue detected" ∧
    interpret_diagnosis "apollo" (mkRat 1 2) ≠ "System coordination normal" ∧
    ¬(mkRat 1 2 > mkRat 1 2) := by decide

/-- Claim C8 (amended): the interpreter equals the two-string-table lookup
keyed on `fault_prob < 0.5` — the fault string for every probability at or
above one half, the normal string strictly below it, and `"Unknown"` for every
identifier outside the known set (the tables make no entry for such an
identifier, so both branches of the amended table give `"Unknown"`). -/
theorem interpret_diagnosis_matches_table (model_name : String) (fault_prob : ℚ) :
    interpret_diagnosis model_name fault_prob
      = interpret_diagnosis_table model_name fault_prob := by
  unfold interpret_diagnosis interpret_diagnosis_table normal_diagnoses fault_diagnoses
  by_cases h : fault_prob < mkRat 1 2 <;> simp [h]

/-- Claim C10: the report's `mode` field always echoes the caller's mode
string verbatim, and every mode string other than exactly `"simultaneous"`
takes the sequential execution path. -/
theorem mode_echo_and_sequential_fallback (st : DiagState) (sd : String → Option ℚ)
    (mode : String) (ord : List String) :
    (diagnose st sd mode ord).mode = mode ∧
    (mode ≠ "simultaneous" → (diagnose st sd mode ord).models = run_sequential st sd) := by
  refine ⟨rfl, fun h => ?_⟩
  rw [diagnose_models_eq, if_neg h]

/-- Claim C10 witness: the unrecognized mode string `"turbo"` is echoed and
runs the sequential path. -/
theorem mode_echo_and_sequential_fallback_witness :
    (diagnose stW sd0 "turbo" MODEL_NAMES).mode = "turbo" ∧
    (diagnose stW sd0 "turbo" MODEL_NAMES).models = run_sequential stW sd0 :=
  ⟨(mode_echo_and_sequential_fallback stW sd0 "turbo" MODEL_NAMES).1,
   (mode_echo_and_sequential_fallback stW sd0 "turbo" MODEL_NAMES).2 (by decide)⟩

/-- Claim C2: in either mode the report holds exactly one entry per registered
model identifier — each of the 8 names occurs exactly once among the report's
keys (and no other name occurs), for any thread completion order. -/
theorem diagnose_report_complete (st : DiagState) (sd : String → Option ℚ)
    (mode : String) (ord : List String) (hord : ord.Perm MODEL_NAMES) (m : String) :
    ((diagnose st sd mode ord).models.map Prod.fst).count m
      = if m ∈ MODEL_NAMES then 1 else 0 := by
  have hkeys : (diagnose st sd mode ord).models.map Prod.fst
      = if mode = "simultaneous" then ord else MODEL_NAMES := by
    rw [diagnose_models_eq]
    by_cases h : mode = "simultaneous" <;>
      simp [h, run_simultaneous_inference, run_sequential, List.map_map, Function.comp_def]
  rw [hkeys]
  have hcount : (if mode = "simultaneous" then ord else MODEL_NAMES).count m
      = MODEL_NAMES.count m := by
    by_cases h : mode = "simultaneous" <;> simp [h, hord.count_eq]
  rw [hcount]
  by_cases hm : m ∈ MODEL_NAMES
  · rw [if_pos hm]
    exact List.count_eq_one_of_mem (by decide) hm
  · rw [if_neg hm]
    exact List.count_eq_zero_of_not_mem hm

/-- Claim C2 witness: with every model loaded, the identity completion order
and `"sequential"` mode, the key `"apollo"` occurs exactly once. -/
theorem diagnose_report_complete_witness :
    ((diagnose stW sd0 "sequential" MODEL_NAMES).models.map Prod.fst).count "apollo"
      = if "apollo" ∈ MODEL_NAMES then 1 else 0 :=
  diagnose_report_complete stW sd0 "sequential" MODEL_NAMES (List.Perm.refl _) "apollo"

lemma seqResult_success {st : DiagState} {sd : String → Option ℚ} {m : String}
    {f : Bool} {c : ℚ} {d : String} {it tt : Option ℚ}
    (h : ModelResult.success f c d it tt = seqResult st sd m) :
    ∃ output, st.backend m (prepare_sensor_data sd) = some output ∧
      c = output.headD 0 ∧ f = decide (c > mkRat 1 2) ∧
      d = interpret_diagnosis m c ∧ it = none ∧ tt = none := by
  unfold seqResult at h
  by_cases hl : st.loaded m
  · rw [if_pos hl] at h
    cases hb : st.backend m (prepare_sensor_data sd) with
    | none => rw [hb] at h; simp at h
    | some output =>
        rw [hb] at h
        simp only [ModelResult.success.injEq] at h
        obtain ⟨hf, hc, hd, hit, htt⟩ := h
        refine ⟨output, rfl, hc, ?_, ?_, hit, htt⟩
        · rw [hc]; exact hf
        · rw [hc]; exact hd
  · rw [if_neg hl] at h
    simp at h

lemma simResult_success {st : DiagState} {sd : String → Option ℚ} {m : String}
    {f : Bool} {c : ℚ} {d : String} {it tt : Option ℚ}
    (h : ModelResult.success f c d it tt
        = addTotalTime st.totalTime (simResult st sd m)) :
    ∃ output, st.backend m (prepare_sensor_data sd) = some output ∧
      c = output.headD 0 ∧ f = decide (c > mkRat 1 2) ∧
      d = interpret_diagnosis m c ∧
      it = some (st.timeOf m) ∧ tt = some st.totalTime := by
  unfold simResult addTotalTime at h
  by_cases hl : st.loaded m
  · rw [if_pos hl] at h
    cases hb : st.backend m (prepare_sensor_data sd) with
    | none => rw [hb] at h; simp at h
    | some output =>
        rw [hb] at h
        simp only [ModelResult.success.injEq] at h
        obtain ⟨hf, hc, hd, hit, htt⟩ := h
        refine ⟨output, rfl, hc, ?_, ?_, hit, htt⟩
        · rw [hc]; exact hf
        · rw [hc]; exact hd
  · rw [if_neg hl] at h
    simp at h

/-- Claim C3: every `Success` result in the report, in either mode, has
`fault_detected` true exactly when its confidence is strictly above `0.5`,
and the confidence is the first scalar of the backend's output for that
model. -/
theorem success_threshold_consistent (st : DiagState) (sd : String → Option ℚ)
    (mode : String) (ord : List String) (m : String) (f : Bool) (c : ℚ)
    (d : String) (it tt : Option ℚ)
    (hmem : (m, ModelResult.success f c d it tt) ∈ (diagnose st sd mode ord).models) :
    (f = true ↔ c > mkRat 1 2) ∧
    ∀ x xs, st.backend m (prepare_sensor_data sd) = some (x :: xs) → c = x := by
  rw [diagnose_models_eq] at hmem
  by_cases hmode : mode = "simultaneous"
  · rw [if_pos hmode] at hmem
    unfold run_simultaneous_inference at hmem
    obtain ⟨output, hb, hc, hf, -, -, -⟩ := simResult_success (mem_map_pair hmem)
    refine ⟨by simp [hf], fun x xs hx => ?_⟩
    rw [hb] at hx
    injection hx with hx
    subst hx
    simpa using hc
  · rw [if_neg hmode] at hmem
    unfold run_sequential at hmem
    obtain ⟨output, hb, hc, hf, -, -, -⟩ := seqResult_success (mem_map_pair hmem)
    refine ⟨by simp [hf], fun x xs hx => ?_⟩
    rw [hb] at hx
    injection hx with hx
    subst hx
    simpa using hc

/-- Claim C3 witness: with every model answering `0.9`, apollo's report entry
in sequential mode is a `Success` with `fault_detected` true, and the theorem
applies to it. -/
theorem success_threshold_consistent_witness :
    true = true ↔ mkRat 9 10 > mkRat 1 2 :=
  (success_threshold_consistent stW sd0 "sequential" MODEL_NAMES "apollo" true
    (mkRat 9 10) "System coordination issue detected" none none (by decide)).1

/-- Claim C4 counterexample: the `diagnose` method's own default mode is
`'sequential'`, so a caller that does not specify a mode gets the sequential
path and a report whose `mode` field is not `"simultaneous"`. -/
theorem diagnose_default_mode_not_simultaneous :
    (diagnoseNoMode stW sd0).mode = "sequential" ∧
    (diagnoseNoMode stW sd0).mode ≠ "simultaneous" ∧
    (diagnoseNoMode stW sd0).models = run_sequential stW sd0 :=
  ⟨rfl, by decide, rfl⟩

/-- Claim C4 (amended): the CLI entry point passes `"simultaneous"` to
`diagnose` whenever the command line carries no mode argument, but the
`diagnose` method's own default parameter is `"sequential"`, so a direct
caller omitting the mode gets sequential execution. -/
theorem default_mode_cli_vs_method (st : DiagState) (sd : String → Option ℚ)
    (argv : List String) (h : argv.length ≤ 3) :
    main_diagnose_mode argv = "simultaneous" ∧
    (diagnose st sd (main_diagnose_mode argv) MODEL_NAMES).mode = "simultaneous" ∧
    diagnoseNoMode st sd = diagnose st sd "sequential" MODEL_NAMES ∧
    (diagnoseNoMode st sd).mode = "sequential" := by
  have h1 : main_diagnose_mode argv = "simultaneous" := by
    unfold main_diagnose_mode
    rw [if_neg (by omega)]
  exact ⟨h1, by rw [h1]; rfl, rfl, rfl⟩

/-- Claim C4 witness: a CLI invocation `diagnose <sensor-json>` with no fourth
argument defaults to simultaneous mode, while the method default stays
sequential. -/
theorem default_mode_cli_vs_method_witness :
    main_diagnose_mode ["hailo_inference.py", "diagnose", "sensors"] = "simultaneous" ∧
    (diagnose stW sd0 (main_diagnose_mode ["hailo_inference.py", "diagnose", "sensors"])
        MODEL_NAMES).mode = "simultaneous" ∧
    diagnoseNoMode stW sd0 = diagnose stW sd0 "sequential" MODEL_NAMES ∧
    (diagnoseNoMode stW sd0).mode = "sequential" :=
  default_mode_cli_vs_method stW sd0 ["hailo_inference.py", "diagnose", "sensors"]
    (by decide)

/-- Claim C5 counterexample: a loaded model whose backend call returns an
empty (but non-error) output yields a `Success` record with confidence `0`
in both execution modes, not a `Failure` — contradicting the claimed
`Failure{"inference failed"}`. -/
theorem empty_output_yields_success :
    (diagnose stE sd0 "sequential" MODEL_NAMES).models.lookup "apollo"
      = some (ModelResult.success false 0 "System coordination normal" none none) ∧
    (diagnose stE sd0 "simultaneous" MODEL_NAMES).models.lookup "apollo"
      = some (ModelResult.success false 0 "System coordination normal"
          (some 3) (some 7)) ∧
    (diagnose stE sd0 "sequential" MODEL_NAMES).models.lookup "apollo"
      ≠ some (ModelResult.failure "inference failed") ∧
    (diagnose stE sd0 "simultaneous" MODEL_NAMES).models.lookup "apollo"
      ≠ some (ModelResult.failure "inference failed") ∧
    (diagnose stE sd0 "sequential" MODEL_NAMES).models.lookup "apollo"
      ≠ some (ModelResult.failure "Inference failed") := by decide

/-- Claim C5 (amended): in both execution modes, only a backend error (the
`None` return) yields the error record, whose reason string is
`"Inference failed"`, and that record carries no confidence; an
empty-but-present output instead yields a `Success` with confidence `0.0` and
`fault_detected` false (in simultaneous mode additionally carrying the timing
fields), which does carry a confidence and so enters the aggregation's
confidence-bearing set. -/
theorem empty_and_error_output_results (st : DiagState) (sd : String → Option ℚ)
    (ord : List String) (m : String) (hmseq : m ∈ MODEL_NAMES) (hmord : m ∈ ord)
    (hl : st.loaded m = true) :
    (st.backend m (prepare_sensor_data sd) = some [] →
      (diagnose st sd "sequential" MODEL_NAMES).models.lookup m
        = some (ModelResult.success false 0 (interpret_diagnosis m 0) none none) ∧
      (diagnose st sd "simultaneous" ord).models.lookup m
        = some (ModelResult.success false 0 (interpret_diagnosis m 0)
            (some (st.timeOf m)) (some st.totalTime)) ∧
      (ModelResult.success false 0 (interpret_diagnosis m 0) none none).hasConfidence
        = true) ∧
    (st.backend m (prepare_sensor_data sd) = none →
      (diagnose st sd "sequential" MODEL_NAMES).models.lookup m
        = some (ModelResult.failure "Inference failed") ∧
      (diagnose st sd "simultaneous" ord).models.lookup m
        = some (ModelResult.failure "Inference failed") ∧
      (ModelResult.failure "Inference failed").hasConfidence = false) := by
  have hlookSeq : (diagnose st sd "sequential" MODEL_NAMES).models.lookup m
      = some (seqResult st sd m) := by
    rw [diagnose_models_eq, if_neg (by decide)]
    exact lookup_map_pair hmseq
  have hlookSim : (diagnose st sd "simultaneous" ord).models.lookup m
      = some (addTotalTime st.totalTime (simResult st sd m)) := by
    rw [diagnose_models_eq, if_pos rfl]
    exact lookup_map_pair hmord
  constructor
  · intro hb
    refine ⟨?_, ?_, rfl⟩
    · rw [hlookSeq]
      unfold seqResult
      rw [if_pos hl, hb]
      rfl
    · rw [hlookSim]
      unfold addTotalTime simResult
      rw [if_pos hl, hb]
      rfl
  · intro hb
    refine ⟨?_, ?_, rfl⟩
    · rw [hlookSeq]
      unfold seqResult
      rw [if_pos hl, hb]
    · rw [hlookSim]
      unfold addTotalTime simResult
      rw [if_pos hl, hb]

/-- Claim C5 witness: apollo loaded with an empty backend output produces the
confidence-0 `Success` record in both modes. -/
theorem empty_and_error_output_results_witness :
    (diagnose stE sd0 "sequential" MODEL_NAMES).models.lookup "apollo"
      = some (ModelResult.success false 0 (interpret_diagnosis "apollo" 0) none none) ∧
    (diagnose stE sd0 "simultaneous" MODEL_NAMES).models.lookup "apollo"
      = some (ModelResult.success false 0 (interpret_diagnosis "apollo" 0)
          (some (stE.timeOf "apollo")) (some stE.totalTime)) ∧
    (ModelResult.success false 0 (interpret_diagnosis "apollo" 0) none none).hasConfidence
      = true :=
  (empty_and_error_output_results stE sd0 MODEL_NAMES "apollo" (by decide) (by decide)
    rfl).1 (by decide)

/-- Claim C7 counterexample: in sequential mode a `Success` result carries no
`inference_time_ms` field (both timing fields are absent), so not every
`Success` produced by `diagnose` carries the per-call duration. -/
theorem sequential_success_lacks_timing :
    (diagnose stW sd0 "sequential" MODEL_NAMES).models.lookup "apollo"
      = some (ModelResult.success true (mkRat 9 10)
          "System coordination issue detected" none none) := by decide

/-- Claim C7 (amended): `Success` results carry `inference_time_ms` (the
measured per-call duration) and `total_ensemble_time_ms` exactly in
simultaneous mode; in sequential mode `Success` results carry neither timing
field. -/
theorem timing_fields_by_mode (st : DiagState) (sd : String → Option ℚ)
    (ord : List String) (m : String) (f : Bool) (c : ℚ) (d : String)
    (it tt : Option ℚ) :
    ((m, ModelResult.success f c d it tt)
        ∈ (diagnose st sd "simultaneous" ord).models →
      it = some (st.timeOf m) ∧ tt = some st.totalTime) ∧
    ((m, ModelResult.success f c d it tt)
        ∈ (diagnose st sd "sequential" ord).models →
      it = none ∧ tt = none) := by
  constructor
  · intro hmem
    rw [diagnose_models_eq, if_pos rfl] at hmem
    unfold run_simultaneous_inference at hmem
    obtain ⟨output, -, -, -, -, hit, htt⟩ := simResult_success (mem_map_pair hmem)
    exact ⟨hit, htt⟩
  · intro hmem
    rw [diagnose_models_eq, if_neg (by decide)] at hmem
    unfold run_sequential at hmem
    obtain ⟨output, -, -, -, -, hit, htt⟩ := seqResult_success (mem_map_pair hmem)
    exact ⟨hit, htt⟩

/-- Claim C7 witness: apollo's simultaneous-mode `Success` entry carries the
measured 3 ms call duration and the 7 ms ensemble duration. -/
theorem timing_fields_by_mode_witness :
    some (3 : ℚ) = some (stW.timeOf "apollo") ∧ some (7 : ℚ) = some stW.totalTime :=
  (timing_fields_by_mode stW sd0 MODEL_NAMES "apollo" true (mkRat 9 10)
    "System coordination issue detected" (some 3) (some 7)).1 (by decide)

/-- Claim C9: with the same registry and two backends that agree on every
model but one, the failing model changing its answer (error or empty output)
leaves every other model's report entry in sequential mode unchanged. -/
theorem single_model_failure_isolated (st₁ st₂ : DiagState)
    (sd : String → Option ℚ) (m0 : String)
    (hload : st₁.loaded = st₂.loaded)
    (hagree : ∀ m, m ≠ m0 → st₁.backend m = st₂.backend m)
    (_hfail : st₂.backend m0 (prepare_sensor_data sd) = none ∨
             st₂.backend m0 (prepare_sensor_data sd) = some [])
    (m : String) (hm : m ≠ m0) :
    (diagnose st₁ sd "sequential" MODEL_NAMES).models.lookup m
      = (diagnose st₂ sd "sequential" MODEL_NAMES).models.lookup m := by
  have hg : ∀ n, n ≠ m0 → seqResult st₁ sd n = seqResult st₂ sd n := by
    intro n hn
    unfold seqResult
    rw [hload, hagree n hn]
  rw [diagnose_models_eq, diagnose_models_eq, if_neg (by decide), if_neg (by decide)]
  exact lookup_map_pair_congr hg hm MODEL_NAMES

/-- Claim C9 witness: against a backend that fails only for apollo, the
boreas entry is identical to the all-success run. -/
theorem single_model_failure_isolated_witness :
    (diagnose stW sd0 "sequential" MODEL_NAMES).models.lookup "boreas"
      = (diagnose stB sd0 "sequential" MODEL_NAMES).models.lookup "boreas" :=
  single_model_failure_isolated stW stB sd0 "apollo" rfl
    (fun m hm => funext (fun v => by
      show some [mkRat 9 10] = if m = "apollo" then none else some [mkRat 9 10]
      rw [if_neg hm]))
    (Or.inl (by decide)) "boreas" (by decide)

/-- Claim C6 counterexample: with the device created but every model failing
to load (zero models loaded), the CLI `diagnose` path still returns a full
`EnsembleReport` — every entry `Failure{"Model not loaded"}` and consensus
`{Unable to complete diagnosis, 0}` — not a top-level error, in the CLI's
default simultaneous mode as well as in sequential mode. -/
theorem zero_models_loaded_still_reports :
    main_diagnose env0 (fun _ _ => some [mkRat 9 10]) (fun _ => 3) 7 sd0
        "simultaneous" MODEL_NAMES
      = CliOutput.report
          ⟨MODEL_NAMES.map (fun m => (m, ModelResult.failure "Model not loaded")),
           ⟨"Unable to complete diagnosis", 0⟩, "simultaneous"⟩ ∧
    main_diagnose env0 (fun _ _ => some [mkRat 9 10]) (fun _ => 3) 7 sd0
        "sequential" MODEL_NAMES
      = CliOutput.report
          ⟨MODEL_NAMES.map (fun m => (m, ModelResult.failure "Model not loaded")),
           ⟨"Unable to complete diagnosis", 0⟩, "sequential"⟩ := by decide

lemma aggregate_all_failures (l : List String) (s : String) :
    aggregate_diagnoses (l.map (fun m => (m, ModelResult.failure s)))
      = ⟨"Unable to complete diagnosis", 0⟩ := by
  have h : ((l.map (fun m => (m, ModelResult.failure s))).map Prod.snd).filter
      ModelResult.hasConfidence = [] := by
    induction l with
    | nil => rfl
    | cons a t ih => simp [ModelResult.hasConfidence, ih]
  unfold aggregate_diagnoses
  rw [h]
  rfl

lemma diagnose_no_models (st : DiagState) (sd : String → Option ℚ) (mode : String)
    (ord : List String) (hl : ∀ m, st.loaded m = false) :
    diagnose st sd mode ord
      = ⟨(if mode = "simultaneous" then ord else MODEL_NAMES).map
           (fun m => (m, ModelResult.failure "Model not loaded")),
         ⟨"Unable to complete diagnosis", 0⟩, mode⟩ := by
  have hres : (diagnose st sd mode ord).models
      = (if mode = "simultaneous" then ord else MODEL_NAMES).map
          (fun m => (m, ModelResult.failure "Model not loaded")) := by
    rw [diagnose_models_eq]
    by_cases hmode : mode = "simultaneous"
    · rw [if_pos hmode, if_pos hmode]
      unfold run_simultaneous_inference
      refine List.map_congr_left (fun m _ => ?_)
      simp [simResult, addTotalTime, hl m]
    · rw [if_neg hmode, if_neg hmode]
      unfold run_sequential
      refine List.map_congr_left (fun m _ => ?_)
      simp [seqResult, hl m]
  have hd : diagnose st sd mode ord
      = ⟨(diagnose st sd mode ord).models,
         aggregate_diagnoses ((diagnose st sd mode ord).models), mode⟩ := rfl
  rw [hd, hres, aggregate_all_failures]

/-- Claim C6 (amended): for every execution mode and completion order, the
top-level error `"Failed to initialize Hailo device"` is returned exactly when
device creation fails; when the device initializes but zero models load,
`diagnose` still returns an EnsembleReport whose every entry is
`Failure{"Model not loaded"}` with consensus result
`{Unable to complete diagnosis, 0}`, echoing the mode the caller passed. -/
theorem top_level_error_iff_device_init_fails (env : InitEnv)
    (backend : String → List ℚ → Option (List ℚ)) (timeOf : String → ℚ)
    (totalTime : ℚ) (sd : String → Option ℚ) (mode : String) (ord : List String)
    (h : ∀ m, (env.load m).isOk = false) :
    (env.deviceOk = false →
      main_diagnose env backend timeOf totalTime sd mode ord
        = CliOutput.failure "Failed to initialize Hailo device") ∧
    (env.deviceOk = true →
      main_diagnose env backend timeOf totalTime sd mode ord
        = CliOutput.report
            ⟨(if mode = "simultaneous" then ord else MODEL_NAMES).map
                (fun m => (m, ModelResult.failure "Model not loaded")),
             ⟨"Unable to complete diagnosis", 0⟩, mode⟩) := by
  constructor
  · intro hdev
    unfold main_diagnose initialize_models
    rw [hdev]
    rfl
  · intro hdev
    unfold main_diagnose initialize_models
    rw [hdev]
    show CliOutput.report _ = _
    exact congrArg CliOutput.report
      (diagnose_no_models
        ⟨fun m => decide (m ∈ MODEL_NAMES) && (env.load m).isOk,
         backend, timeOf, totalTime⟩ sd mode ord
        (fun m => by
          show (decide (m ∈ MODEL_NAMES) && (env.load m).isOk) = false
          rw [h m, Bool.and_false]))

/-- Claim C6 witness: the device initializes, every load fails, and the
amended theorem's report branch applies in the CLI's default simultaneous
mode. -/
theorem top_level_error_iff_device_init_fails_witness :
    env0.deviceOk = true ∧
    main_diagnose env0 (fun _ _ => none) (fun _ => 3) 7 sd0 "simultaneous" MODEL_NAMES
      = CliOutput.report
          ⟨(if "simultaneous" = "simultaneous" then MODEL_NAMES else MODEL_NAMES).map
              (fun m => (m, ModelResult.failure "Model not loaded")),
           ⟨"Unable to complete diagnosis", 0⟩, "simultaneous"⟩ :=
  ⟨rfl, (top_level_error_iff_device_init_fails env0 (fun _ _ => none) (fun _ => 3) 7 sd0
    "simultaneous" MODEL_NAMES (fun _ => rfl)).2 rfl⟩
